import Mathlib

/-
  Verification development for the dummylaw backend (backend/main.py).

  The embedding models the only parts of the program with real logic:
  - extract_text_from_file and its two format-specific helpers, with the
    external libraries (utf-8 decoding, python-docx, PyPDF2) passed in as
    function parameters;
  - the section parser inside gemini_explain: the regex split on the
    heading pattern, the classification loop, and the bullet-list
    extraction;
  - the risk-score extraction int(risk_text.strip()) with its default of 50.

  Strings are Lean strings (lists of characters); Python's whitespace
  handling is modelled over the ASCII whitespace characters, which covers
  every character class the program's own string constants use.
-/

set_option maxRecDepth 100000

namespace DummyLaw

/-- Python whitespace test (ASCII part): the characters stripped by
str.strip() and matched by the regex class backslash-s. -/
def pyIsSpace (c : Char) : Bool :=
  c == ' ' || c == '\t' || c == '\n' || c == '\r' || c == '\x0b' || c == '\x0c'

/-- The character set of the Python call strip with argument asterisk-space. -/
def isStarOrSpace (c : Char) : Bool := c == '*' || c == ' '

/-- Remove the longest runs of characters satisfying p from both ends. -/
def stripList (p : Char → Bool) (l : List Char) : List Char :=
  (((l.dropWhile p).reverse).dropWhile p).reverse

/-- Python str.strip() with no argument. -/
def pyStrip (s : String) : String := ⟨stripList pyIsSpace s.data⟩

/-- Python str.strip with the two-character argument asterisk-space, as used
on bullet lines in gemini_explain. -/
def pyStripStarSpace (s : String) : String := ⟨stripList isStarOrSpace s.data⟩

/-- Python str.lower() on the ASCII range. -/
def pyLower (s : String) : String := ⟨s.data.map Char.toLower⟩

/-- Is the first list a contiguous sublist of the second? -/
def isSubListOf : List Char → List Char → Bool
  | sub, [] => sub.isEmpty
  | sub, c :: rest => List.isPrefixOf sub (c :: rest) || isSubListOf sub rest

/-- Python substring containment: `sub in s`. -/
def containsSub (s sub : String) : Bool := isSubListOf sub.data s.data

/-- Python startswith for the one-character argument asterisk. -/
def pyStartsWithStar (s : String) : Bool :=
  match s.data with
  | '*' :: _ => true
  | _ => false

/-- Python str.splitlines(): cut at line breaks, with no trailing empty line
for a final break.  The recognised breaks are newline, carriage return,
carriage-return-newline, vertical tab and form feed. -/
def pySplitlinesAux (cur : List Char) : List Char → List (List Char)
  | [] => if cur.isEmpty then [] else [cur.reverse]
  | '\r' :: '\n' :: rest => cur.reverse :: pySplitlinesAux [] rest
  | '\r' :: rest => cur.reverse :: pySplitlinesAux [] rest
  | '\n' :: rest => cur.reverse :: pySplitlinesAux [] rest
  | '\x0b' :: rest => cur.reverse :: pySplitlinesAux [] rest
  | '\x0c' :: rest => cur.reverse :: pySplitlinesAux [] rest
  | c :: rest => pySplitlinesAux (c :: cur) rest

def pySplitlines (s : String) : List String :=
  (pySplitlinesAux [] s.data).map String.mk

/-- The list-field extraction of gemini_explain:
[line.strip("* ").strip() for line in section_text.splitlines()
 if line.strip().startswith("*")]. -/
def parseListItems (section_text : String) : List String :=
  ((pySplitlines section_text).filter (fun line => pyStartsWithStar (pyStrip line))).map
    (fun line => pyStrip (pyStripStarSpace line))

/-- The data_map dictionary built by the section loop of gemini_explain. -/
structure DataMap where
  explanation : String
  summary : String
  key_points : List String
  risks : List String
  recommendations : List String
deriving DecidableEq

/-- The initial data_map: empty strings and empty lists. -/
def initMap : DataMap := ⟨"", "", [], [], []⟩

/-- One iteration of the section loop: lower-cased stripped label matched by
substring tests in the fixed order of the source, updating one field. -/
def applySection (m : DataMap) (name text : String) : DataMap :=
  if containsSub (pyLower (pyStrip name)) "explanation"
      || containsSub (pyLower (pyStrip name)) "explain" then
    { m with explanation := pyStrip text }
  else if containsSub (pyLower (pyStrip name)) "summary" then
    { m with summary := pyStrip text }
  else if containsSub (pyLower (pyStrip name)) "key point" then
    { m with key_points := parseListItems (pyStrip text) }
  else if containsSub (pyLower (pyStrip name)) "risk" then
    { m with risks := parseListItems (pyStrip text) }
  else if containsSub (pyLower (pyStrip name)) "recommendation" then
    { m with recommendations := parseListItems (pyStrip text) }
  else m

/-- One attempt of the heading regex at the head of the character list: two
asterisks, one or more digits, a period, optional whitespace, a captured
non-empty run of non-asterisk characters, a colon, two asterisks.  Returns
the captured label and the remainder after the whole match.  The final
two branches realise the backtracking of the greedy whitespace star when
the label would otherwise be empty. -/
def matchHeading (s : List Char) : Option (List Char × List Char) :=
  match s with
  | '*' :: '*' :: r0 =>
    (let ds := r0.takeWhile Char.isDigit
     if ds.isEmpty then none
     else
       match r0.drop ds.length with
       | '.' :: r2 =>
         (let r := r2.takeWhile (fun c => c != '*')
          match r2.drop r.length with
          | '*' :: '*' :: r4 =>
            if r.getLast? == some ':' then
              (let core := r.dropLast
               let w := core.takeWhile pyIsSpace
               if w.length < core.length then some (core.drop w.length, r4)
               else if core.isEmpty then none
               else some (core.drop (core.length - 1), r4))
            else none
          | _ => none)
       | _ => none)
  | _ => none

/-- re.split with one capture group: scan left to right, cut the text at
every heading match, and keep every captured label between the cuts.  The
fuel argument bounds the recursion; each heading match consumes at least
seven characters, so fuel equal to the text length never runs out. -/
def scanSplit : Nat → List Char → List Char → List (List Char)
  | 0, cur, rest => [cur.reverse ++ rest]
  | _ + 1, cur, [] => [cur.reverse]
  | fuel + 1, cur, c :: rest =>
    match matchHeading (c :: rest) with
    | some (label, after) => cur.reverse :: label :: scanSplit fuel [] after
    | none => scanSplit fuel (c :: cur) rest

/-- sections = re.split of the answer on the heading pattern. -/
def reSplitHeadings (answer : String) : List String :=
  (scanSplit answer.data.length [] answer.data).map String.mk

/-- Consecutive pairs of a list, starting at its head. -/
def pairsOf : List (String) → List (String × String)
  | [] => []
  | [_] => []
  | a :: b :: rest => (a, b) :: pairsOf rest

/-- The captured labels of the split, in document order. -/
def labelsOf (answer : String) : List String :=
  (pairsOf (reSplitHeadings answer).tail).map Prod.fst

/-- The section loop of gemini_explain, run on the sections list past the
leading fragment: each step reads a label and the element after it.  The
none result models the IndexError that Python would raise when the body
index i+1 is out of range. -/
def sectionLoop : List String → DataMap → Option DataMap
  | [], m => some m
  | [_], _ => none
  | name :: text :: rest, m => sectionLoop rest (applySection m name text)

/-- The whole answer parser of gemini_explain, with the possible
out-of-range access kept visible as an Option. -/
def parseSections (answer : String) : Option DataMap :=
  sectionLoop (reSplitHeadings answer).tail initMap

/-- The parsed data_map of an answer (the out-of-range branch never fires;
see the segmentation theorem). -/
def parseAnswer (answer : String) : DataMap :=
  (parseSections answer).getD initMap

/-- Numeric value of an ASCII digit. -/
def digitVal (c : Char) : Nat := c.toNat - '0'.toNat

/-- Digit tail of a Python integer literal: further digits, with single
underscores allowed between digits. -/
def goDigits (acc : Nat) : List Char → Option Nat
  | [] => some acc
  | '_' :: c :: rest =>
    if c.isDigit then goDigits (acc * 10 + digitVal c) rest else none
  | c :: rest =>
    if c.isDigit then goDigits (acc * 10 + digitVal c) rest else none

/-- Python int(s) on a string: optional surrounding whitespace, an optional
sign, then digits; none models the ValueError on any other content. -/
def pyInt (s : String) : Option Int :=
  match stripList pyIsSpace s.data with
  | '+' :: c :: rest =>
    if c.isDigit then (goDigits (digitVal c) rest).map Int.ofNat else none
  | '-' :: c :: rest =>
    if c.isDigit then (goDigits (digitVal c) rest).map (fun n => -(n : Int)) else none
  | c :: rest =>
    if c.isDigit then (goDigits (digitVal c) rest).map Int.ofNat else none
  | [] => none

/-- int(risk_text.strip()) with the ValueError handler defaulting to 50. -/
def riskFromText (risk_text : String) : Int :=
  match pyInt (pyStrip risk_text) with
  | some n => n
  | none => 50

/-- The risk sub-call outcome: none models a transport-level failure of the
risk request (the outer except branch), some t a response with body t. -/
def riskFrom : Option String → Int
  | none => 50
  | some t => riskFromText t

/-- The response model returned by gemini_explain. -/
structure DocumentResponse where
  explanation : String
  summary : String
  key_points : List String
  risks : List String
  recommendations : List String
  risk : Int
  full_text : String
deriving DecidableEq

/-- gemini_explain after its two upstream calls: answer is the text of the
main analysis call, riskText the outcome of the risk call. -/
def gemini_explain (text answer : String) (riskText : Option String) : DocumentResponse :=
  let m := parseAnswer answer
  ⟨m.explanation, m.summary, m.key_points, m.risks, m.recommendations,
    riskFrom riskText, text⟩

/-- The ValueError message for an unsupported filename suffix. -/
def unsupportedMsg (filename : String) : String :=
  "Неподдерживаемый формат файла: " ++ filename

/-- The ValueError message when the DOCX reader fails. -/
def docxErrorMsg : String := "Ошибка при чтении DOCX файла"

/-- The ValueError message when the PDF reader fails. -/
def pdfErrorMsg : String := "Ошибка при чтении PDF файла"

/-- Python str.endswith. -/
def pyEndsWith (s pat : String) : Bool :=
  List.isPrefixOf pat.data.reverse s.data.reverse

/-- extract_text_from_docx: docx.Document with its paragraph texts is the
external library, modelled as a parameter; none models the exception the
library raises on a payload it cannot parse. -/
def extract_text_from_docx (docDocument : List Nat → Option (List String))
    (content : List Nat) : Except String String :=
  match docDocument content with
  | some paragraphs => .ok (String.intercalate "\n" paragraphs)
  | none => .error docxErrorMsg

/-- extract_text_from_pdf: PyPDF2.PdfReader is the external library,
modelled as a parameter; a page whose extract_text returns none is
replaced by the empty string, as in the source. -/
def extract_text_from_pdf (pdfReader : List Nat → Option (List (Option String)))
    (content : List Nat) : Except String String :=
  match pdfReader content with
  | some pages => .ok (String.intercalate "\n" (pages.map (fun p => p.getD "")))
  | none => .error pdfErrorMsg

/-- extract_text_from_file: dispatch strictly on the filename suffix.  The
utf-8 decoder with errors ignored never fails, so it is a total parameter. -/
def extract_text_from_file (decodeUtf8 : List Nat → String)
    (docDocument : List Nat → Option (List String))
    (pdfReader : List Nat → Option (List (Option String)))
    (content : List Nat) (filename : String) : Except String String :=
  if pyEndsWith filename ".txt" then .ok (decodeUtf8 content)
  else if pyEndsWith filename ".docx" then extract_text_from_docx docDocument content
  else if pyEndsWith filename ".pdf" then extract_text_from_pdf pdfReader content
  else .error (unsupportedMsg filename)

/-- The five fields a section label can be classified to. -/
inductive SectionField where
  | explanation
  | summary
  | keyPoints
  | risks
  | recommendations
deriving DecidableEq

/-- The classification of a label, mirroring the if-elif chain of the
section loop. -/
def classify (name : String) : Option SectionField :=
  if containsSub (pyLower (pyStrip name)) "explanation"
      || containsSub (pyLower (pyStrip name)) "explain" then some .explanation
  else if containsSub (pyLower (pyStrip name)) "summary" then some .summary
  else if containsSub (pyLower (pyStrip name)) "key point" then some .keyPoints
  else if containsSub (pyLower (pyStrip name)) "risk" then some .risks
  else if containsSub (pyLower (pyStrip name)) "recommendation" then some .recommendations
  else none

/-- The classification rules as an ordered list of keyword sets, the order
of the specification. -/
def rules : List (List String × SectionField) :=
  [(["explanation", "explain"], .explanation),
   (["summary"], .summary),
   (["key point"], .keyPoints),
   (["risk"], .risks),
   (["recommendation"], .recommendations)]

/-- First-match-wins classification over the ordered rule list, with
case-insensitive substring tests. -/
def ruleClassify (name : String) : Option SectionField :=
  (rules.find? (fun r => r.1.any (fun k => containsSub (pyLower (pyStrip name)) k))).map
    Prod.snd

/-- Writing one classified section into the data map. -/
def setField (m : DataMap) : SectionField → String → DataMap
  | .explanation, text => { m with explanation := pyStrip text }
  | .summary, text => { m with summary := pyStrip text }
  | .keyPoints, text => { m with key_points := parseListItems (pyStrip text) }
  | .risks, text => { m with risks := parseListItems (pyStrip text) }
  | .recommendations, text => { m with recommendations := parseListItems (pyStrip text) }

/-- Reading one field of the data map. -/
def getField (m : DataMap) : SectionField → String ⊕ List String
  | .explanation => .inl m.explanation
  | .summary => .inl m.summary
  | .keyPoints => .inr m.key_points
  | .risks => .inr m.risks
  | .recommendations => .inr m.recommendations

/-- The value a section body contributes to a field. -/
def fieldValue : SectionField → String → String ⊕ List String
  | .explanation, text => .inl (pyStrip text)
  | .summary, text => .inl (pyStrip text)
  | .keyPoints, text => .inr (parseListItems (pyStrip text))
  | .risks, text => .inr (parseListItems (pyStrip text))
  | .recommendations, text => .inr (parseListItems (pyStrip text))

/-- The default value of each field in the initial data map. -/
def defaultField : SectionField → String ⊕ List String
  | .explanation => .inl ""
  | .summary => .inl ""
  | .keyPoints => .inr []
  | .risks => .inr []
  | .recommendations => .inr []

/-- One step of the section loop on a label-body pair. -/
def step (m : DataMap) (p : String × String) : DataMap := applySection m p.1 p.2

/-- A block of bulleted lines for the reconstruction of a parsed answer. -/
def bulletBlock (items : List String) : String :=
  String.join (items.map (fun i => "* " ++ i ++ "\n"))

/-- Reconstruct an answer from parsed fields: each recognised heading
followed by its body, list fields re-emitted as bulleted lines. -/
def reconstruct (m : DataMap) : String :=
  "**1. Explanation:** " ++ m.explanation ++ "\n" ++
  "**2. Summary:** " ++ m.summary ++ "\n" ++
  "**3. Key Points:**\n" ++ bulletBlock m.key_points ++
  "**4. Risks:**\n" ++ bulletBlock m.risks ++
  "**5. Recommendations:**\n" ++ bulletBlock m.recommendations

/-- The synthetic model answer of the specification: five headings, a
key-points body with two bulleted lines and one line that is not, an empty
risks body and one bulleted recommendation. -/
def syntheticAnswer : String :=
  "**1. Explanation:**\nThis is the explanation.\n**2. Summary:**\nShort summary.\n**3. Key Points:**\n* First point\n* Second point\nNot a bullet line\n**4. Risks:**\n**5. Recommendations:**\n* Do this\n"

/-- The split list always has odd length: a leading fragment followed by
label-body pairs. -/
theorem scanSplit_length_odd : ∀ (fuel : Nat) (cur s : List Char),
    (scanSplit fuel cur s).length % 2 = 1 := by
  intro fuel
  induction fuel with
  | zero => intro cur s; rfl
  | succ n ih =>
    intro cur s
    cases s with
    | nil => rfl
    | cons c rest =>
      cases h : matchHeading (c :: rest) with
      | none =>
        simpa [scanSplit, h] using ih (c :: cur) rest
      | some p =>
        obtain ⟨label, after⟩ := p
        have h2 := ih [] after
        simp only [scanSplit, h, List.length_cons]
        omega

theorem reSplitHeadings_length_odd (answer : String) :
    (reSplitHeadings answer).length % 2 = 1 := by
  simpa [reSplitHeadings] using
    scanSplit_length_odd answer.data.length [] answer.data

/-- On a list of even length the section loop never reaches its
out-of-range branch and computes the fold over the label-body pairs. -/
theorem sectionLoop_even_eq : ∀ (l : List String) (m : DataMap),
    l.length % 2 = 0 → sectionLoop l m = some (List.foldl step m (pairsOf l))
  | [], _, _ => rfl
  | [_], _, h => by
    simp only [List.length_cons, List.length_nil] at h
    omega
  | a :: b :: rest, m, h => by
    have h2 : rest.length % 2 = 0 := by
      simp only [List.length_cons] at h
      omega
    have ih := sectionLoop_even_eq rest (applySection m a b) h2
    simpa [sectionLoop, pairsOf, step] using ih

theorem parseSections_eq (answer : String) :
    parseSections answer =
      some (List.foldl step initMap (pairsOf (reSplitHeadings answer).tail)) := by
  have hodd := reSplitHeadings_length_odd answer
  have heven : (reSplitHeadings answer).tail.length % 2 = 0 := by
    rw [List.length_tail]
    omega
  exact sectionLoop_even_eq _ _ heven

theorem parseAnswer_eq (answer : String) :
    parseAnswer answer =
      List.foldl step initMap (pairsOf (reSplitHeadings answer).tail) := by
  rw [parseAnswer, parseSections_eq]
  rfl

/-- The if-elif chain of the loop body is the classification followed by a
single field write. -/
theorem applySection_classify (m : DataMap) (name text : String) :
    applySection m name text =
      match classify name with
      | none => m
      | some f => setField m f text := by
  unfold applySection classify
  split_ifs <;> rfl

theorem getField_setField_self (m : DataMap) (f : SectionField) (text : String) :
    getField (setField m f text) f = fieldValue f text := by
  cases f <;> rfl

theorem getField_setField_ne (m : DataMap) (f g : SectionField) (text : String)
    (h : f ≠ g) : getField (setField m g text) f = getField m f := by
  cases f <;> cases g <;> first | rfl | exact absurd rfl h

theorem getField_initMap (f : SectionField) : getField initMap f = defaultField f := by
  cases f <;> rfl

/-- A fold over pairs none of which classifies to f leaves field f alone. -/
theorem foldl_preserve (ps : List (String × String)) :
    ∀ (m : DataMap) (f : SectionField),
      (∀ p, p ∈ ps → classify p.1 ≠ some f) →
      getField (List.foldl step m ps) f = getField m f := by
  induction ps with
  | nil => intro m f _; rfl
  | cons p rest ih =>
    intro m f h
    rw [List.foldl_cons, ih (step m p) f (fun q hq => h q (List.mem_cons_of_mem p hq))]
    have hp := h p (List.mem_cons_self p rest)
    show getField (applySection m p.1 p.2) f = getField m f
    rw [applySection_classify]
    cases hc : classify p.1 with
    | none => rfl
    | some g =>
      rw [hc] at hp
      exact getField_setField_ne m f g p.2 (fun he => hp (by rw [he]))

theorem isPrefixOf_cons_elim {c : Char} {l r : List Char}
    (h : List.isPrefixOf (c :: l) r = true) : ∃ r', r = c :: r' := by
  cases r with
  | nil => simp [List.isPrefixOf] at h
  | cons a as =>
    refine ⟨as, ?_⟩
    simp only [List.isPrefixOf, Bool.and_eq_true, beq_iff_eq] at h
    rw [h.1]

theorem endsWith_docx_not_txt (f : String) (h : pyEndsWith f ".docx" = true) :
    pyEndsWith f ".txt" = false := by
  have h' : List.isPrefixOf ('x' :: ['c', 'o', 'd', '.']) f.data.reverse = true := h
  obtain ⟨r', hr⟩ := isPrefixOf_cons_elim h'
  show List.isPrefixOf ('t' :: ['x', 't', '.']) f.data.reverse = false
  rw [hr]
  rfl

theorem endsWith_pdf_not_txt (f : String) (h : pyEndsWith f ".pdf" = true) :
    pyEndsWith f ".txt" = false := by
  have h' : List.isPrefixOf ('f' :: ['d', 'p', '.']) f.data.reverse = true := h
  obtain ⟨r', hr⟩ := isPrefixOf_cons_elim h'
  show List.isPrefixOf ('t' :: ['x', 't', '.']) f.data.reverse = false
  rw [hr]
  rfl

theorem endsWith_pdf_not_docx (f : String) (h : pyEndsWith f ".pdf" = true) :
    pyEndsWith f ".docx" = false := by
  have h' : List.isPrefixOf ('f' :: ['d', 'p', '.']) f.data.reverse = true := h
  obtain ⟨r', hr⟩ := isPrefixOf_cons_elim h'
  show List.isPrefixOf ('x' :: ['c', 'o', 'd', '.']) f.data.reverse = false
  rw [hr]
  rfl

/-- C1: parsing the synthetic model answer yields the trimmed explanation
and summary bodies, exactly the two bulleted key-point lines with the
non-bulleted line dropped, an empty risks sequence and a recommendations
sequence of length one. -/
theorem claim1_synthetic_answer :
    (parseAnswer syntheticAnswer).explanation = "This is the explanation." ∧
    (parseAnswer syntheticAnswer).summary = "Short summary." ∧
    (parseAnswer syntheticAnswer).key_points = ["First point", "Second point"] ∧
    (parseAnswer syntheticAnswer).risks = [] ∧
    (parseAnswer syntheticAnswer).recommendations = ["Do this"] ∧
    (parseAnswer syntheticAnswer).recommendations.length = 1 :=
  ⟨rfl, rfl, rfl, rfl, rfl, rfl⟩

/-- C2 (amended): the list-field extraction keeps exactly the lines whose
trimmed content starts with an asterisk, in original order, each stripped
of leading and trailing asterisks and spaces and then of surrounding
whitespace; the resulting strings need not be non-empty.  Every element
of the result comes from such a bulleted line. -/
theorem claim2_list_extraction :
    (∀ body : String,
        parseListItems body =
          ((pySplitlines body).filter (fun line => pyStartsWithStar (pyStrip line))).map
            (fun line => pyStrip (pyStripStarSpace line))) ∧
    (∀ body s, s ∈ parseListItems body →
        ∃ line, line ∈ pySplitlines body ∧ pyStartsWithStar (pyStrip line) = true ∧
          s = pyStrip (pyStripStarSpace line)) := by
  constructor
  · intro body
    rfl
  · intro body s hs
    rw [parseListItems] at hs
    obtain ⟨line, hline, hmap⟩ := List.mem_map.mp hs
    obtain ⟨hmem, hfilt⟩ := List.mem_filter.mp hline
    exact ⟨line, hmem, by simpa using hfilt, hmap.symm⟩

/-- C2 counterexample: the body consisting of a lone asterisk is kept as a
bullet line and strips to the empty string, so the output can contain an
empty string, refuting the non-emptiness part of the claim. -/
theorem claim2_counterexample :
    parseListItems "*" = [""] ∧ "" ∈ parseListItems "*" :=
  ⟨rfl, by decide⟩

theorem claim2_list_extraction_witness :
    ∃ line, line ∈ pySplitlines "* alpha" ∧ pyStartsWithStar (pyStrip line) = true ∧
      "alpha" = pyStrip (pyStripStarSpace line) :=
  claim2_list_extraction.2 "* alpha" "alpha" (by decide)

/-- C3 counterexample: a risk response of "150" produces risk = 150, which
is outside the closed interval from 0 to 100 — the code does not clamp. -/
theorem claim3_counterexample :
    (gemini_explain "doc" "" (some "150")).risk = 150 ∧
    ¬ (gemini_explain "doc" "" (some "150")).risk ≤ 100 :=
  ⟨rfl, by decide⟩

/-- C3 (amended): the risk field lies in the interval from 0 to 100
whenever every successful parse of the trimmed risk text lies in that
interval; it always does when the parse fails or the risk call fails,
since the default is 50.  The code performs no clamping of its own. -/
theorem claim3_risk_range :
    (∀ (text answer t : String),
        (∀ n : Int, pyInt (pyStrip t) = some n → 0 ≤ n ∧ n ≤ 100) →
        0 ≤ (gemini_explain text answer (some t)).risk ∧
          (gemini_explain text answer (some t)).risk ≤ 100) ∧
    (∀ (text answer : String),
        0 ≤ (gemini_explain text answer none).risk ∧
          (gemini_explain text answer none).risk ≤ 100) := by
  constructor
  · intro text answer t h
    show 0 ≤ riskFromText t ∧ riskFromText t ≤ 100
    rw [riskFromText]
    cases hc : pyInt (pyStrip t) with
    | none =>
      show (0 : Int) ≤ 50 ∧ (50 : Int) ≤ 100
      decide
    | some n => exact h n hc
  · intro text answer
    show (0 : Int) ≤ 50 ∧ (50 : Int) ≤ 100
    decide

theorem claim3_risk_range_witness :
    0 ≤ (gemini_explain "d" "a" (some "73")).risk ∧
      (gemini_explain "d" "a" (some "73")).risk ≤ 100 :=
  claim3_risk_range.1 "d" "a" "73"
    (fun n h => by
      rw [show pyInt (pyStrip "73") = some 73 from rfl] at h
      injection h with h2
      exact h2 ▸ (by decide))

/-- C4: a docx or pdf payload the format-specific reader cannot parse makes
the extraction fail with the reading-failure error, and that error value
is never equal to the unsupported-format error of any filename. -/
theorem claim4_extraction_error_distinct :
    (∀ decodeUtf8 docDocument pdfReader content filename,
        pyEndsWith filename ".docx" = true → docDocument content = none →
        extract_text_from_file decodeUtf8 docDocument pdfReader content filename =
          Except.error docxErrorMsg) ∧
    (∀ decodeUtf8 docDocument pdfReader content filename,
        pyEndsWith filename ".pdf" = true → pdfReader content = none →
        extract_text_from_file decodeUtf8 docDocument pdfReader content filename =
          Except.error pdfErrorMsg) ∧
    (∀ g, docxErrorMsg ≠ unsupportedMsg g) ∧
    (∀ g, pdfErrorMsg ≠ unsupportedMsg g) := by
  refine ⟨?_, ?_, ?_, ?_⟩
  · intro dec docR pdfR content filename h hN
    simp [extract_text_from_file, endsWith_docx_not_txt filename h, h,
      extract_text_from_docx, hN]
  · intro dec docR pdfR content filename h hN
    simp [extract_text_from_file, endsWith_pdf_not_txt filename h,
      endsWith_pdf_not_docx filename h, h, extract_text_from_pdf, hN]
  · intro g h
    obtain ⟨gd⟩ := g
    have h2 : docxErrorMsg.data.head? = (unsupportedMsg ⟨gd⟩).data.head? := by rw [h]
    have h3 : (some 'О' : Option Char) = some 'Н' := h2
    exact absurd (Option.some.inj h3) (by decide)
  · intro g h
    obtain ⟨gd⟩ := g
    have h2 : pdfErrorMsg.data.head? = (unsupportedMsg ⟨gd⟩).data.head? := by rw [h]
    have h3 : (some 'О' : Option Char) = some 'Н' := h2
    exact absurd (Option.some.inj h3) (by decide)

theorem claim4_extraction_error_distinct_witness :
    extract_text_from_file (fun _ => "") (fun _ => none) (fun _ => none) []
        "a.docx" = Except.error docxErrorMsg ∧
    extract_text_from_file (fun _ => "") (fun _ => none) (fun _ => none) []
        "a.pdf" = Except.error pdfErrorMsg :=
  ⟨claim4_extraction_error_distinct.1 _ _ _ [] "a.docx" (by decide) rfl,
   claim4_extraction_error_distinct.2.1 _ _ _ [] "a.pdf" (by decide) rfl⟩

/-- C5: the risk extraction parses the trimmed response text as an integer,
yields exactly that integer on success, and defaults to 50 on any parse
failure or transport failure, never failing itself; in particular "73"
gives 73, "high" gives 50, and "  42 \n" gives 42. -/
theorem claim5_risk_parsing :
    (gemini_explain "" "" (some "73")).risk = 73 ∧
    (gemini_explain "" "" (some "high")).risk = 50 ∧
    (gemini_explain "" "" (some "  42 \n")).risk = 42 ∧
    (∀ (text answer t : String) (n : Int), pyInt (pyStrip t) = some n →
        (gemini_explain text answer (some t)).risk = n) ∧
    (∀ (text answer t : String), pyInt (pyStrip t) = none →
        (gemini_explain text answer (some t)).risk = 50) ∧
    (∀ (text answer : String), (gemini_explain text answer none).risk = 50) := by
  refine ⟨rfl, rfl, rfl, ?_, ?_, ?_⟩
  · intro text answer t n h
    show riskFromText t = n
    simp only [riskFromText, h]
  · intro text answer t h
    show riskFromText t = 50
    simp only [riskFromText, h]
  · intro text answer
    rfl

theorem claim5_risk_parsing_witness :
    (gemini_explain "d" "a" (some "nope")).risk = 50 :=
  claim5_risk_parsing.2.2.2.2.1 "d" "a" "nope" rfl

/-- C6: any filename whose suffix is none of .txt, .docx, .pdf makes
extraction fail with the unsupported-format error, for every content and
every behaviour of the external readers. -/
theorem claim6_unsupported_suffix :
    ∀ decodeUtf8 docDocument pdfReader content filename,
      pyEndsWith filename ".txt" = false → pyEndsWith filename ".docx" = false →
      pyEndsWith filename ".pdf" = false →
      extract_text_from_file decodeUtf8 docDocument pdfReader content filename =
        Except.error (unsupportedMsg filename) := by
  intro dec docR pdfR content filename h1 h2 h3
  simp [extract_text_from_file, h1, h2, h3]

theorem claim6_unsupported_suffix_witness :
    extract_text_from_file (fun _ => "") (fun _ => none) (fun _ => none) []
      "report.exe" = Except.error (unsupportedMsg "report.exe") :=
  claim6_unsupported_suffix _ _ _ _ _ (by decide) (by decide) (by decide)

/-- C7: when no captured label of the answer classifies to a field, that
field of the parse result keeps its default empty value; in particular an
answer with no recognised headings leaves every field at its default. -/
theorem claim7_missing_sections :
    ∀ (answer : String) (f : SectionField),
      (∀ lab, lab ∈ labelsOf answer → classify lab ≠ some f) →
      getField (parseAnswer answer) f = defaultField f := by
  intro answer f h
  have h2 : ∀ p, p ∈ pairsOf (reSplitHeadings answer).tail → classify p.1 ≠ some f := by
    intro p hp
    exact h p.1 (List.mem_map_of_mem Prod.fst hp)
  rw [parseAnswer_eq, foldl_preserve _ initMap f h2, getField_initMap]

theorem claim7_missing_sections_witness :
    getField (parseAnswer "hello world") SectionField.explanation =
      defaultField SectionField.explanation :=
  claim7_missing_sections "hello world" SectionField.explanation (by decide)

/-- C8: label classification equals first-match-wins search over the
ordered case-insensitive substring rules, each loop step writes exactly
the classified field, and when several headings classify to the same
field the parsed value comes from the last such heading. -/
theorem claim8_classification_order :
    (∀ name, classify name = ruleClassify name) ∧
    (∀ m name text, applySection m name text =
        match classify name with
        | none => m
        | some f => setField m f text) ∧
    (∀ (answer : String) (ps₁ ps₂ : List (String × String)) (name text : String)
        (f : SectionField),
        pairsOf (reSplitHeadings answer).tail = ps₁ ++ (name, text) :: ps₂ →
        classify name = some f →
        (∀ p, p ∈ ps₂ → classify p.1 ≠ some f) →
        getField (parseAnswer answer) f = fieldValue f text) := by
  refine ⟨?_, applySection_classify, ?_⟩
  · intro name
    unfold classify ruleClassify rules
    cases h1 : containsSub (pyLower (pyStrip name)) "explanation" <;>
    cases h2 : containsSub (pyLower (pyStrip name)) "explain" <;>
    cases h3 : containsSub (pyLower (pyStrip name)) "summary" <;>
    cases h4 : containsSub (pyLower (pyStrip name)) "key point" <;>
    cases h5 : containsSub (pyLower (pyStrip name)) "risk" <;>
    cases h6 : containsSub (pyLower (pyStrip name)) "recommendation" <;>
    simp [h1, h2, h3, h4, h5, h6, List.find?]
  · intro answer ps₁ ps₂ name text f hsplit hcls hrest
    rw [parseAnswer_eq, hsplit, List.foldl_append, List.foldl_cons,
      foldl_preserve ps₂ _ f hrest]
    have hstep : step (List.foldl step initMap ps₁) (name, text) =
        setField (List.foldl step initMap ps₁) f text := by
      show applySection _ name text = _
      rw [applySection_classify, hcls]
    rw [hstep, getField_setField_self]

theorem claim8_classification_order_witness :
    getField (parseAnswer "**1. Summary:** A\n**2. Summary:** B") SectionField.summary =
      fieldValue SectionField.summary " B" :=
  claim8_classification_order.2.2 "**1. Summary:** A\n**2. Summary:** B"
    [("Summary", " A\n")] [] "Summary" " B" SectionField.summary (by decide) (by decide)
    (fun p hp => absurd hp (List.not_mem_nil p))

/-- C9: on the synthetic answer, reconstructing the parsed fields as
headings with bodies and bulleted lines and parsing the reconstruction
yields the same field values as parsing the original answer. -/
theorem claim9_idempotent_on_synthetic :
    parseAnswer (reconstruct (parseAnswer syntheticAnswer)) =
      parseAnswer syntheticAnswer := by
  decide

/-- C10: for every answer the split has odd length, so the section loop,
whose body reads the element after each label through Option-valued
indexing, never reaches its out-of-range branch. -/
theorem claim10_segmentation_safe :
    ∀ answer : String,
      (reSplitHeadings answer).length % 2 = 1 ∧
      ∃ m, parseSections answer = some m := by
  intro answer
  exact ⟨reSplitHeadings_length_odd answer, _, parseSections_eq answer⟩

end DummyLaw
